import Mathlib

/-!
Verification development for a minimal personal-finance ledger API
(Fastify + knex, TypeScript). Clients record monetary transactions
(title, amount, credit/debit) and retrieve them, scoped per anonymous
session identified by a `sessionId` cookie.

The embedding translates the route handlers of
`src/routes/transactions.ts` (stitched into `src/src/app.ts`), the Zod
schemas used there, and the environment loader (`src/env/index.ts`).
The database table `transactions` is modelled as a list of rows; the
knex insert appends, and the knex where-filters become list filters.
JSON numbers are modelled as rationals (the amounts and sums the
handlers manipulate are exact in both models).
-/

namespace Ledger

/-- Transaction type, from the Zod enum in `createTransactionBodySchema`:
`z.enum(\x7b'credit', 'debit'\x7d)` (written there as an array literal). -/
inductive TxType
  | credit
  | debit
deriving DecidableEq, Repr

/-- A primitive JSON value, as may appear in a field of a request body.
(Nested arrays and objects are omitted: the schemas under verification
accept only strings and numbers, and reject every other shape alike.) -/
inductive JVal
  | jstr (s : String)
  | jnum (q : Rat)
  | jbool (b : Bool)
  | jnull
deriving DecidableEq, Repr

/-- The raw body of a create request: a JSON object, of which the schema
reads the three keys `title`, `amount`, `type` (a missing key is `none`). -/
structure CreateBody where
  title : Option JVal
  amount : Option JVal
  type : Option JVal
deriving DecidableEq, Repr

/-- The parsed create payload, the output type of
`createTransactionBodySchema.parse`. -/
structure CreateInput where
  title : String
  amount : Rat
  type : TxType
deriving DecidableEq, Repr

/-- `z.string()` on the `title` field: succeeds exactly on a JSON string. -/
def parseTitle : Option JVal → Option String
  | some (.jstr s) => some s
  | _ => none

/-- `z.number()` on the `amount` field: succeeds exactly on a JSON number
(plain `z.number()` does not coerce strings). -/
def parseAmount : Option JVal → Option Rat
  | some (.jnum q) => some q
  | _ => none

/-- `z.enum(\x7b'credit', 'debit'\x7d)` on the `type` field. -/
def parseTxType : Option JVal → Option TxType
  | some (.jstr "credit") => some TxType.credit
  | some (.jstr "debit") => some TxType.debit
  | _ => none

/-- The list of violated fields of a create body, as collected by Zod
into the issues of the `ZodError` thrown by `parse` (Zod reports every
failing field of an object schema, not only the first). -/
def createBodyIssues (b : CreateBody) : List String :=
  (if (parseTitle b.title).isSome then [] else ["title"]) ++
  (if (parseAmount b.amount).isSome then [] else ["amount"]) ++
  (if (parseTxType b.type).isSome then [] else ["type"])

/-- `createTransactionBodySchema.parse(request.body)`: returns the typed
payload, or throws a structured validation error listing every violated
field (modelled as `Except.error`). -/
def parseCreateBody (b : CreateBody) : Except (List String) CreateInput :=
  match parseTitle b.title, parseAmount b.amount, parseTxType b.type with
  | some ti, some q, some t => Except.ok ⟨ti, q, t⟩
  | _, _, _ => Except.error (createBodyIssues b)

/-- A row of the `transactions` table, per the knex table declaration:
`id`, `title`, `amount`, `session_id` (nullable at schema level).
The `created_at` column is set by a database default and never read by
any handler under verification, so it is omitted from the model. -/
structure Row where
  id : String
  title : String
  amount : Rat
  session_id : Option String
deriving DecidableEq, Repr

/-- The signed amount computed by the create handler:
`type === 'credit' ? amount : amount * -1`. -/
def signedAmount (t : TxType) (q : Rat) : Rat :=
  if t = TxType.credit then q else q * (-1)

/-- The cookie emitted by `response.setCookie('sessionId', sessionId,
\x7b path: '/', maxAge: 60 * 60 * 24 * 7 \x7d)`. -/
structure SetCookie where
  name : String
  value : String
  path : String
  maxAge : Nat
deriving DecidableEq, Repr

/-- The create handler reads `request.cookies.sessionId` and tests
`if (!sessionId)`: JavaScript falsiness holds for an absent cookie
(`undefined`) and also for a present cookie whose value is the empty
string. -/
def cookieAbsent : Option String → Bool
  | none => true
  | some s => s == ""

/-- The session id the create handler ends up using: the cookie value
when `!sessionId` is false, otherwise the freshly generated
`randomUUID()` (supplied here as the parameter `fresh`). -/
def resolvedSessionId (cookie : Option String) (fresh : String) : String :=
  if cookieAbsent cookie then fresh else cookie.getD ""

/-- The response cookie the create handler sets: only when `!sessionId`,
with path `/` and max-age `60 * 60 * 24 * 7` seconds. -/
def mintedCookie (cookie : Option String) (fresh : String) : Option SetCookie :=
  if cookieAbsent cookie then
    some ⟨"sessionId", fresh, "/", 60 * 60 * 24 * 7⟩
  else none

/-- Outcome of the create route: either the thrown validation error of
`parse`, or HTTP 201 with the optional `Set-Cookie`. -/
inductive PostResult
  | validationError (issues : List String)
  | created (status : Nat) (cookie : Option SetCookie)
deriving DecidableEq, Repr

/-- The POST `/` handler. Steps, in source order: (1) parse the body
with `createTransactionBodySchema` (a failure throws before anything
else happens); (2) resolve the `sessionId` cookie, minting and setting
a fresh UUID when absent; (3) insert `\x7b id: randomUUID(), title,
amount: type === 'credit' ? amount : amount * -1, session_id \x7d`;
(4) reply 201. The two `randomUUID()` results are the parameters
`fresh` (session) and `rid` (row id). -/
def postTransaction (db : List Row) (cookie : Option String)
    (body : CreateBody) (fresh rid : String) : List Row × PostResult :=
  match parseCreateBody body with
  | Except.error issues => (db, PostResult.validationError issues)
  | Except.ok input =>
      (db ++ [{ id := rid, title := input.title,
                amount := signedAmount input.type input.amount,
                session_id := some (resolvedSessionId cookie fresh) }],
       PostResult.created 201 (mintedCookie cookie fresh))

/-- Modelled from the spec: the middleware `checkSessionIdExists`
(file `src/middlewares/check-session-id-exists.ts`, absent from the
sources; only its import and its `preHandler` registrations are there).
Spec contract: read the `sessionId` cookie; if absent, reject the
request with an unauthorized-style response and do not proceed to the
handler. -/
def checkSessionIdExists (cookie : Option String) : Bool :=
  cookie.isSome

/-- Outcome of the list route. -/
inductive ListResult
  | unauthorized
  | ok (transactions : List Row)
deriving DecidableEq, Repr

/-- The GET `/` handler behind `checkSessionIdExists`: selects all rows
of `transactions` where `session_id` equals the cookie value
(`knex('transactions').where('session_id', sessionId).select()`). -/
def listTransactions (db : List Row) (cookie : Option String) : ListResult :=
  match cookie with
  | none => ListResult.unauthorized
  | some sid => ListResult.ok (db.filter (fun r => r.session_id == some sid))

/-- Splitting a character list at every occurrence of a separator
(structural helper used by the UUID check and the number conversion). -/
def splitOnChar (sep : Char) : List Char → List (List Char)
  | [] => [[]]
  | c :: cs =>
      let r := splitOnChar sep cs
      if c = sep then [] :: r
      else
        match r with
        | [] => [[c]]
        | g :: gs => (c :: g) :: gs

/-- Hexadecimal digit test, for the UUID shape. -/
def isHexChar (c : Char) : Bool :=
  c.isDigit || (('a' ≤ c) && (c ≤ 'f')) || (('A' ≤ c) && (c ≤ 'F'))

/-- `z.string().uuid()` of `getTransactionsParamsSchema`, modelled as the
8-4-4-4-12 hexadecimal shape of a UUID string (five dash-separated groups
of 8, 4, 4, 4 and 12 hexadecimal characters). -/
def isUuid (s : String) : Bool :=
  match splitOnChar '-' s.data with
  | [a, b, c, d, e] =>
      a.length == 8 && b.length == 4 && c.length == 4 && d.length == 4 &&
      e.length == 12 && (a ++ b ++ c ++ d ++ e).all isHexChar
  | _ => false

/-- Outcome of the get-by-id route. -/
inductive GetOneResult
  | unauthorized
  | validationError (issues : List String)
  | ok (transaction : Option Row)
deriving DecidableEq, Repr

/-- The GET `/:id` handler behind `checkSessionIdExists`: parses the
route param with `getTransactionsParamsSchema` (`id: z.string().uuid()`),
then selects the first row matching both `session_id` and `id`
(`knex('transactions').where(\x7b session_id, id \x7d).first()`); the
result object carries the row, or null when no row matches. -/
def getTransaction (db : List Row) (cookie : Option String)
    (id : String) : GetOneResult :=
  match cookie with
  | none => GetOneResult.unauthorized
  | some sid =>
      if isUuid id then
        GetOneResult.ok
          ((db.filter (fun r => r.session_id == some sid && r.id == id)).head?)
      else GetOneResult.validationError ["id"]

/-- SQL `SUM(amount)` over a set of rows: `NULL` when the set is empty,
the sum otherwise (the `amount` column is never null). -/
def sumAmount (rows : List Row) : Option Rat :=
  match rows with
  | [] => none
  | _ => some (rows.foldl (fun acc r => acc + r.amount) 0)

/-- Outcome of the summary route: the aggregate `amount` is the sum, or
null for a session with no rows. -/
inductive SummaryResult
  | unauthorized
  | ok (amount : Option Rat)
deriving DecidableEq, Repr

/-- The GET `/summary` handler behind `checkSessionIdExists`:
`knex('transactions').where('session_id', sessionId)
.sum('amount', \x7b as: 'amount' \x7d).first()`. -/
def getSummary (db : List Row) (cookie : Option String) : SummaryResult :=
  match cookie with
  | none => SummaryResult.unauthorized
  | some sid =>
      SummaryResult.ok (sumAmount (db.filter (fun r => r.session_id == some sid)))

/-- Convenience constructor for a well-typed create body, used to state
round-trip properties. -/
def mkBody (ti : String) (q : Rat) (t : TxType) : CreateBody :=
  { title := some (JVal.jstr ti),
    amount := some (JVal.jnum q),
    type := some (JVal.jstr (match t with
      | TxType.credit => "credit"
      | TxType.debit => "debit")) }

/-! ## Environment loader (`src/env/index.ts`) -/

/-- The relevant slice of `process.env`: each variable is a string or
absent. -/
structure ProcessEnv where
  NODE_ENV : Option String
  DATABASE_URL : Option String
  DATABASE_CLIENT : Option String
  PORT : Option String
deriving DecidableEq, Repr

/-- The validated environment, the `data` of a successful
`envSchema.safeParse`. -/
structure Env where
  NODE_ENV : String
  DATABASE_URL : String
  DATABASE_CLIENT : String
  PORT : Rat
deriving DecidableEq, Repr

/-- Numeric value of a list of decimal digit characters. -/
def digitsVal (cs : List Char) : Nat :=
  cs.foldl (fun a c => a * 10 + (c.toNat - 48)) 0

/-- Model of the JavaScript `Number(s)` conversion that
`z.coerce.number()` applies to an environment-variable string,
restricted to plain decimal literals: an optional sign followed by
digits with an optional fractional part (at least one digit overall);
the empty string converts to 0; any other string (letters, multiple
dots, a bare sign) is `NaN`, which `z.number()` then rejects —
modelled as `none`. (Exponent and hexadecimal literal forms of
JavaScript are not modelled; no claim exercises them.) -/
def jsNumber (s : String) : Option Rat :=
  if s = "" then some 0
  else
    let signAndRest : Rat × List Char :=
      match s.data with
      | '-' :: cs => (-1, cs)
      | '+' :: cs => (1, cs)
      | cs => (1, cs)
    let sign := signAndRest.1
    let toVal : List Char → List Char → Option Rat := fun ip fp =>
      if (ip = [] && fp = []) || (!ip.all Char.isDigit) || (!fp.all Char.isDigit)
      then none
      else some (sign * ((digitsVal ip : Rat) +
                         (digitsVal fp : Rat) / ((10 : Rat) ^ fp.length)))
    match splitOnChar '.' signAndRest.2 with
    | [ip] => toVal ip []
    | [ip, fp] => toVal ip fp
    | _ => none

/-- `envSchema.safeParse(process.env)` followed by the throw-on-failure
check of `src/env/index.ts`: success yields the validated data with
defaults applied (`NODE_ENV` defaults to `production`, `DATABASE_CLIENT`
to `sqlite`, `PORT` to 3333); any missing required variable or failed
type/enum/coercion check makes the loader throw — modelled as `none`. -/
def envLoad (p : ProcessEnv) : Option Env :=
  let nodeEnv : Option String :=
    match p.NODE_ENV with
    | none => some "production"
    | some s =>
        if s = "development" ∨ s = "test" ∨ s = "production" then some s
        else none
  let dbClient : Option String :=
    match p.DATABASE_CLIENT with
    | none => some "sqlite"
    | some s => if s = "sqlite" ∨ s = "pg" then some s else none
  let port : Option Rat :=
    match p.PORT with
    | none => some 3333
    | some s => jsNumber s
  match nodeEnv, p.DATABASE_URL, dbClient, port with
  | some ne, some url, some dc, some pt => some ⟨ne, url, dc, pt⟩
  | _, _, _, _ => none

/-! ## Helper lemmas -/

theorem parseCreateBody_mkBody (ti : String) (q : Rat) (t : TxType) :
    parseCreateBody (mkBody ti q t) = Except.ok ⟨ti, q, t⟩ := by
  cases t <;> rfl

theorem foldl_add_amount (l : List Row) (a : Rat) :
    l.foldl (fun acc r => acc + r.amount) a = a + (l.map Row.amount).sum := by
  induction l generalizing a with
  | nil => simp
  | cons r l ih => simp [ih, add_assoc]

theorem sumAmount_eq (l : List Row) :
    sumAmount l = if l = [] then none else some ((l.map Row.amount).sum) := by
  cases l with
  | nil => rfl
  | cons r l => simp [sumAmount, foldl_add_amount]

/-! ## Claims -/

/-- Claim C1: for every valid create request (title string, amount
number, type credit or debit), the amount stored in the inserted row
equals the input amount when the type is credit and equals the negation
of the input amount when the type is debit; under the precondition that
the input amount is positive, a credit row stores a value greater than
zero and a debit row stores the negated input. -/
theorem c1_create_signed_amount (db : List Row) (cookie : Option String)
    (ti : String) (q : Rat) (t : TxType) (fresh rid : String)
    (hpos : 0 < q) :
    ∃ row : Row,
      (postTransaction db cookie (mkBody ti q t) fresh rid).1 = db ++ [row] ∧
      row.amount = (if t = TxType.credit then q else -q) ∧
      (t = TxType.credit → 0 < row.amount) ∧
      (t = TxType.debit → row.amount = -q) := by
  refine ⟨{ id := rid, title := ti, amount := signedAmount t q,
            session_id := some (resolvedSessionId cookie fresh) }, ?_, ?_, ?_, ?_⟩
  · simp [postTransaction, parseCreateBody_mkBody]
  · cases t <;> simp [signedAmount]
  · intro ht
    subst ht
    simpa [signedAmount] using hpos
  · intro ht
    subst ht
    simp [signedAmount]

/-- Witness for C1 at a concrete input: a credit of 5 in a fresh
session. -/
theorem c1_create_signed_amount_witness :
    (0 : Rat) < 5 ∧
    ∃ row : Row,
      (postTransaction [] none (mkBody "a" 5 TxType.credit) "s" "r").1 =
        [] ++ [row] ∧
      row.amount = (if TxType.credit = TxType.credit then (5 : Rat) else -5) ∧
      (TxType.credit = TxType.credit → 0 < row.amount) ∧
      (TxType.credit = TxType.debit → row.amount = -5) :=
  ⟨by norm_num,
   c1_create_signed_amount [] none "a" 5 TxType.credit "s" "r" (by norm_num)⟩

/-- Claim C10: the create validator places no positivity constraint on
the amount: for every title, every rational amount (including zero and
negative values) and both types, validation succeeds and the insert
stores the sign-transformed amount (credit as-is, debit negated), so
for non-positive inputs the stored sign no longer encodes the type
(a credit of -5 stores a negative value, a debit of 0 stores 0). -/
theorem c10_no_positivity_constraint (ti : String) (q : Rat) (t : TxType)
    (db : List Row) (cookie : Option String) (fresh rid : String) :
    parseCreateBody (mkBody ti q t) = Except.ok ⟨ti, q, t⟩ ∧
    (postTransaction db cookie (mkBody ti q t) fresh rid).1 =
      db ++ [⟨rid, ti, signedAmount t q, some (resolvedSessionId cookie fresh)⟩] ∧
    signedAmount TxType.credit q = q ∧
    signedAmount TxType.debit q = -q ∧
    signedAmount TxType.credit (-5) < 0 ∧
    signedAmount TxType.debit 0 = 0 := by
  refine ⟨parseCreateBody_mkBody ti q t, ?_, ?_, ?_, ?_, ?_⟩
  · simp [postTransaction, parseCreateBody_mkBody]
  · simp [signedAmount]
  · simp [signedAmount]
  · simp [signedAmount]
  · simp [signedAmount]

/-- Claim C5: every request to the list, get-by-id and summary routes
that carries no sessionId cookie is rejected with an unauthorized-style
response, for every database state alike (so before and independent of
any storage access); the create route is not subject to this rejection
and succeeds without a cookie. -/
theorem c5_missing_session_rejected (db : List Row) (i : String)
    (ti : String) (q : Rat) (t : TxType) (fresh rid : String) :
    listTransactions db none = ListResult.unauthorized ∧
    getTransaction db none i = GetOneResult.unauthorized ∧
    getSummary db none = SummaryResult.unauthorized ∧
    checkSessionIdExists none = false ∧
    (postTransaction db none (mkBody ti q t) fresh rid).2 =
      PostResult.created 201 (some ⟨"sessionId", fresh, "/", 604800⟩) := by
  refine ⟨rfl, rfl, rfl, rfl, ?_⟩
  simp [postTransaction, parseCreateBody_mkBody, mintedCookie, cookieAbsent]

/-- Claim C2: for every session, the summary operation returns the
signed sum of the amount column over exactly the rows whose session_id
equals the session cookie value; after inserting a credit of 5000 and a
debit of 2000 in one session the summary amount is 3000, and for a
session with zero transactions the summary amount is null (none), not
zero. -/
theorem c2_summary_aggregation (db : List Row) (sid : String) :
    (getSummary db (some sid) =
      SummaryResult.ok
        (if db.filter (fun r => r.session_id == some sid) = [] then none
         else
           some (((db.filter (fun r => r.session_id == some sid)).map
             Row.amount).sum))) ∧
    getSummary
      (postTransaction
        (postTransaction [] none
          (mkBody "Credit transaction" 5000 TxType.credit) "s1" "r1").1
        (some "s1") (mkBody "Debit transaction" 2000 TxType.debit) "s1" "r2").1
      (some "s1") = SummaryResult.ok (some 3000) ∧
    getSummary [] (some "s1") = SummaryResult.ok none := by
  refine ⟨?_, ?_, rfl⟩
  · simp [getSummary, sumAmount_eq]
  · simp [postTransaction, parseCreateBody_mkBody, resolvedSessionId,
          cookieAbsent, signedAmount, getSummary, sumAmount]
    norm_num

/-- Claim C3: session isolation — a transaction created under one
session identifier is never visible through the list, get-by-id or
summary operations invoked with a different session cookie: each read
filters rows by session_id, so the three reads under the other session
are unchanged by the insert. -/
theorem c3_session_isolation (db : List Row) (cookie : Option String)
    (body : CreateBody) (fresh rid : String) (sid2 i : String)
    (hne : sid2 ≠ resolvedSessionId cookie fresh) :
    listTransactions (postTransaction db cookie body fresh rid).1 (some sid2) =
      listTransactions db (some sid2) ∧
    getTransaction (postTransaction db cookie body fresh rid).1 (some sid2) i =
      getTransaction db (some sid2) i ∧
    getSummary (postTransaction db cookie body fresh rid).1 (some sid2) =
      getSummary db (some sid2) := by
  have hbeq :
      ((some (resolvedSessionId cookie fresh) : Option String) == some sid2) =
        false := by
    simpa [beq_eq_false_iff_ne] using Ne.symm hne
  cases hp : parseCreateBody body with
  | error is => simp [postTransaction, hp]
  | ok input =>
      refine ⟨?_, ?_, ?_⟩ <;>
        simp [postTransaction, hp, listTransactions, getTransaction,
              getSummary, List.filter_append, hbeq]

/-- Witness for C3 at a concrete input: a credit created under session
s1 is invisible to session s2. -/
theorem c3_session_isolation_witness :
    "s2" ≠ resolvedSessionId none "s1" ∧
    (listTransactions
        (postTransaction [] none (mkBody "t" 1 TxType.credit) "s1" "r1").1
        (some "s2") =
      listTransactions [] (some "s2") ∧
    getTransaction
        (postTransaction [] none (mkBody "t" 1 TxType.credit) "s1" "r1").1
        (some "s2") "00000000-0000-0000-0000-000000000000" =
      getTransaction [] (some "s2") "00000000-0000-0000-0000-000000000000" ∧
    getSummary
        (postTransaction [] none (mkBody "t" 1 TxType.credit) "s1" "r1").1
        (some "s2") =
      getSummary [] (some "s2")) :=
  ⟨by decide,
   c3_session_isolation [] none (mkBody "t" 1 TxType.credit) "s1" "r1" "s2"
     "00000000-0000-0000-0000-000000000000" (by decide)⟩

/-- Claim C7: round trip — for a session with no prior rows, creating a
transaction with title T, amount 5000, type credit and then listing
with the same session cookie returns exactly one entry, with title T
and amount 5000. -/
theorem c7_round_trip (db : List Row) (cookie : Option String)
    (fresh rid : String)
    (hfresh : ∀ r ∈ db, r.session_id ≠ some (resolvedSessionId cookie fresh)) :
    listTransactions
        (postTransaction db cookie (mkBody "T" 5000 TxType.credit) fresh rid).1
        (some (resolvedSessionId cookie fresh)) =
      ListResult.ok [⟨rid, "T", 5000, some (resolvedSessionId cookie fresh)⟩] := by
  have hnil :
      db.filter
        (fun r => r.session_id == some (resolvedSessionId cookie fresh)) = [] := by
    rw [List.filter_eq_nil_iff]
    intro r hr
    simpa using hfresh r hr
  simp [postTransaction, parseCreateBody_mkBody, listTransactions,
        List.filter_append, hnil, signedAmount]

/-- Witness for C7 at a concrete input: an empty database and a fresh
session. -/
theorem c7_round_trip_witness :
    (∀ r ∈ ([] : List Row),
      r.session_id ≠ some (resolvedSessionId none "s1")) ∧
    listTransactions
        (postTransaction [] none (mkBody "T" 5000 TxType.credit) "s1" "r1").1
        (some (resolvedSessionId none "s1")) =
      ListResult.ok [⟨"r1", "T", 5000, some (resolvedSessionId none "s1")⟩] :=
  ⟨by simp, c7_round_trip [] none "s1" "r1" (by simp)⟩

/-- Counterexample to claim C4 as stated: a create request whose
sessionId cookie is present with the empty-string value. The claim says
that whenever the cookie is present no response cookie is set and the
existing value is used unchanged; but the handler tests JavaScript
falsiness (`if (!sessionId)`), which also holds for the empty string,
so here a response cookie IS set and the inserted row carries the fresh
UUID f, not the existing value. -/
theorem c4_counterexample :
    (some "" : Option String) ≠ none ∧
    (postTransaction [] (some "") (mkBody "t" 5 TxType.credit) "f" "r").2 =
      PostResult.created 201 (some ⟨"sessionId", "f", "/", 604800⟩) ∧
    (postTransaction [] (some "") (mkBody "t" 5 TxType.credit) "f" "r").1 =
      [⟨"r", "t", 5, some "f"⟩] ∧
    "f" ≠ "" := by
  refine ⟨by simp, ?_, ?_, by simp⟩ <;>
    simp [postTransaction, parseCreateBody_mkBody, mintedCookie,
          resolvedSessionId, cookieAbsent, signedAmount]

/-- Claim C4 as amended: on every create request whose sessionId cookie
is absent or has the empty-string value, the handler sets a response
cookie named sessionId with the fresh UUID as value, path slash and
max-age 604800 seconds, and uses the fresh UUID as the inserted row's
session_id; on every create request whose sessionId cookie is present
with a non-empty value, no response cookie is set and the existing
value is used unchanged, so a second create reusing the minted
(non-empty) cookie does not overwrite it. -/
theorem c4_cookie_minting (db : List Row) (body : CreateBody)
    (input : CreateInput) (hp : parseCreateBody body = Except.ok input)
    (cookie : Option String) (fresh rid : String) :
    ((cookie = none ∨ cookie = some "") →
      postTransaction db cookie body fresh rid =
        (db ++ [⟨rid, input.title, signedAmount input.type input.amount,
                 some fresh⟩],
         PostResult.created 201 (some ⟨"sessionId", fresh, "/", 604800⟩))) ∧
    (∀ s : String, cookie = some s → s ≠ "" →
      postTransaction db cookie body fresh rid =
        (db ++ [⟨rid, input.title, signedAmount input.type input.amount,
                 some s⟩],
         PostResult.created 201 none)) := by
  constructor
  · rintro (h | h) <;> subst h <;>
      simp [postTransaction, hp, resolvedSessionId, cookieAbsent, mintedCookie]
  · rintro s rfl hne
    simp [postTransaction, hp, resolvedSessionId, cookieAbsent, mintedCookie,
          beq_eq_false_iff_ne, hne]

/-- Witness for the amended C4 at concrete inputs: one create without a
cookie mints and sets the cookie; one create with the minted non-empty
cookie leaves it alone. -/
theorem c4_cookie_minting_witness :
    parseCreateBody (mkBody "t" 1 TxType.credit) =
      Except.ok ⟨"t", 1, TxType.credit⟩ ∧
    (((some "u1" : Option String) = none ∨ (some "u1" : Option String) = some "") →
      postTransaction [] (some "u1") (mkBody "t" 1 TxType.credit) "u2" "r" =
        ([] ++ [⟨"r", "t",
                 signedAmount TxType.credit (1 : Rat), some "u2"⟩],
         PostResult.created 201 (some ⟨"sessionId", "u2", "/", 604800⟩))) ∧
    (∀ s : String, (some "u1" : Option String) = some s → s ≠ "" →
      postTransaction [] (some "u1") (mkBody "t" 1 TxType.credit) "u2" "r" =
        ([] ++ [⟨"r", "t",
                 signedAmount TxType.credit (1 : Rat), some s⟩],
         PostResult.created 201 none)) :=
  ⟨by rfl,
   (c4_cookie_minting [] (mkBody "t" 1 TxType.credit) ⟨"t", 1, TxType.credit⟩
     (by rfl) (some "u1") "u2" "r").1,
   (c4_cookie_minting [] (mkBody "t" 1 TxType.credit) ⟨"t", 1, TxType.credit⟩
     (by rfl) (some "u1") "u2" "r").2⟩

/-- Claim C6: for every get-by-id request with a valid session cookie
and a syntactically valid UUID id for which no row matches both
session_id and id, the operation succeeds and returns a null
transaction — never a 404 or any other error. -/
theorem c6_get_miss_null (db : List Row) (sid i : String)
    (hu : isUuid i = true)
    (hmiss : ∀ r ∈ db, ¬(r.session_id = some sid ∧ r.id = i)) :
    getTransaction db (some sid) i = GetOneResult.ok none := by
  have hnil :
      db.filter (fun r => r.session_id == some sid && r.id == i) = [] := by
    rw [List.filter_eq_nil_iff]
    intro r hr
    simpa using hmiss r hr
  simp [getTransaction, hu, hnil]

/-- Witness for C6 at a concrete input: a database holding one row of
the same session but another id, queried for the nil UUID. -/
theorem c6_get_miss_null_witness :
    isUuid "00000000-0000-0000-0000-000000000000" = true ∧
    (∀ r ∈ [(⟨"11111111-1111-1111-1111-111111111111", "x", 1,
              some "s"⟩ : Row)],
      ¬(r.session_id = some "s" ∧
        r.id = "00000000-0000-0000-0000-000000000000")) ∧
    getTransaction
        [⟨"11111111-1111-1111-1111-111111111111", "x", 1, some "s"⟩]
        (some "s") "00000000-0000-0000-0000-000000000000" =
      GetOneResult.ok none :=
  ⟨by decide, by decide,
   c6_get_miss_null
     [⟨"11111111-1111-1111-1111-111111111111", "x", 1, some "s"⟩]
     "s" "00000000-0000-0000-0000-000000000000" (by decide) (by decide)⟩

/-- Claim C8: every create request whose body fails the create schema
(title not a string, amount not a number, or type outside the credit
and debit enum) aborts with a structured validation error listing the
violated fields, before the cookie step and before the insert: the
database is returned unchanged, and no 201 response (hence no
Set-Cookie) is produced. -/
theorem c8_validation_failure (db : List Row) (body : CreateBody)
    (issues : List String)
    (hp : parseCreateBody body = Except.error issues)
    (cookie : Option String) (fresh rid : String) :
    postTransaction db cookie body fresh rid =
      (db, PostResult.validationError issues) ∧
    issues = createBodyIssues body ∧ issues ≠ [] := by
  refine ⟨by simp [postTransaction, hp], ?_, ?_⟩ <;>
    cases ht : parseTitle body.title <;>
      cases ha : parseAmount body.amount <;>
        cases hty : parseTxType body.type <;>
          simp_all [parseCreateBody, createBodyIssues] <;>
            (try (rw [← hp]; simp))

/-- Witness for C8 at a concrete input: a body whose amount is the
non-numeric, non-coercible string 12abc. -/
theorem c8_validation_failure_witness :
    parseCreateBody
        ⟨some (JVal.jstr "t"), some (JVal.jstr "12abc"),
         some (JVal.jstr "credit")⟩ =
      Except.error ["amount"] ∧
    (postTransaction [] none
        ⟨some (JVal.jstr "t"), some (JVal.jstr "12abc"),
         some (JVal.jstr "credit")⟩ "f" "r" =
      ([], PostResult.validationError ["amount"]) ∧
    ["amount"] = createBodyIssues
        ⟨some (JVal.jstr "t"), some (JVal.jstr "12abc"),
         some (JVal.jstr "credit")⟩ ∧
    ["amount"] ≠ []) := by
  refine ⟨by rfl, ?_⟩
  exact c8_validation_failure []
    ⟨some (JVal.jstr "t"), some (JVal.jstr "12abc"),
     some (JVal.jstr "credit")⟩ ["amount"] (by rfl) none "f" "r"

/-- Counterexample to claim C9 as stated: the claim allows success only
when PORT is absent or an integer coercible from string, but the schema
uses a bare numeric coercion with no integer check, so with PORT set to
the non-integer string 3.5 the loader succeeds, storing the non-integer
value 7/2. -/
theorem c9_counterexample :
    envLoad ⟨none, some "./db/app.db", none, some "3.5"⟩ =
      some ⟨"production", "./db/app.db", "sqlite", 7 / 2⟩ ∧
    ¬∃ n : Int, ((7 : Rat) / 2) = (n : Rat) := by
  constructor
  · have hj : jsNumber "3.5" = some (7 / 2) := by
      simp [jsNumber, splitOnChar, digitsVal]
      norm_num
    simp [envLoad, hj]
  · rintro ⟨n, hn⟩
    have h : (7 : Rat) = 2 * (n : Rat) := by
      field_simp at hn
      linarith
    have h2 : (7 : Int) = 2 * n := by exact_mod_cast h
    omega

/-- Claim C9 as amended: the environment loader succeeds exactly when
DATABASE_URL is present (any string), NODE_ENV is absent or one of
development, test, production, DATABASE_CLIENT is absent or one of
sqlite, pg, and PORT is absent or a string that the JavaScript Number
conversion turns into a number — not necessarily an integer; on success
with the optional variables absent it applies the defaults production,
sqlite and 3333, and on any missing required variable or failed
type/enum/coercion check it fails by throwing (modelled as none, so no
partial startup). -/
theorem c9_env_loader (p : ProcessEnv) :
    ((envLoad p).isSome ↔
      (p.DATABASE_URL.isSome ∧
       (p.NODE_ENV = none ∨ p.NODE_ENV = some "development" ∨
        p.NODE_ENV = some "test" ∨ p.NODE_ENV = some "production") ∧
       (p.DATABASE_CLIENT = none ∨ p.DATABASE_CLIENT = some "sqlite" ∨
        p.DATABASE_CLIENT = some "pg") ∧
       (p.PORT = none ∨
        ∃ s q, p.PORT = some s ∧ jsNumber s = some q))) ∧
    (∀ url, envLoad ⟨none, some url, none, none⟩ =
      some ⟨"production", url, "sqlite", 3333⟩) := by
  constructor
  · obtain ⟨ne, url, dc, port⟩ := p
    rcases port with _ | s
    · cases ne <;> cases url <;> cases dc <;>
        simp only [envLoad] <;> (try split_ifs) <;> (try simp_all)
    · cases hj : jsNumber s <;> cases ne <;> cases url <;> cases dc <;>
        simp only [envLoad, hj] <;> (try split_ifs) <;> (try simp_all)
  · intro url
    rfl

end Ledger
